import Mathlib

/-!
Shallow embedding of the `termenv` terminal color-level detection code
(Go package `termenv` of the goutil repository) and proofs about it.

Modelling conventions:
- Environment variables are `Option String` (`none` = unset); `os.Getenv`
  returns the empty string for an unset variable, embedded as `getenv`.
- The package-level mutable globals (`noColor`, `supportColor`,
  `backOldVal`, `colorLevel`, `detectedWSL`, `wslContents`, and the
  diagnostic last-error slot) are gathered into an explicit `State`
  record; Go functions that mutate them become state-passing functions.
- `debugf` calls are pure logging no-ops and are omitted.
- Go `strings.Contains`, `strings.Split(s, ".")[0]` and `strconv.Atoi`
  are embedded as executable char-list functions below.
-/

set_option autoImplicit false

namespace termenv

/-- `type ColorLevel uint8`; only the values 0..3 are ever constructed. -/
abbrev ColorLevel := Nat

/-- `TermColorNone ColorLevel = iota` — not support color. -/
def TermColorNone : ColorLevel := 0

/-- `TermColor16` — 16(4bit) ANSI color supported. -/
def TermColor16 : ColorLevel := 1

/-- `TermColor256` — 256(8bit) color supported. -/
def TermColor256 : ColorLevel := 2

/-- `TermColorTrue` — support TRUE(RGB) color. -/
def TermColorTrue : ColorLevel := 3

/-- The environment snapshot read by the detector. `none` models an
unset variable. `GOOS` embeds `runtime.GOOS`. -/
structure Env where
  TERM : Option String
  TERMINAL_EMULATOR : Option String
  COLORTERM : Option String
  TERM_PROGRAM : Option String
  TERM_PROGRAM_VERSION : Option String
  FORCE_COLOR : Option String
  NO_COLOR : Option String
  GOOS : String
  deriving Repr, DecidableEq

/-- `os.Getenv`: the empty string when the variable is unset. -/
def getenv (v : Option String) : String := v.getD ""

/-- The package-level mutable globals of `termenv`, as one record.
`lastErr` is the diagnostic last-error slot written by `setLastErr`. -/
structure State where
  noColor : Bool
  supportColor : Bool
  backOldVal : Bool
  colorLevel : ColorLevel
  detectedWSL : Bool
  wslContents : String
  lastErr : Option String
  deriving Repr, DecidableEq

/-- Modelled from the spec: `setLastErr` is not under `src/`; the spec
says a single "last error" slot may be retained for diagnostic
inspection but must not affect control flow, so it just stores the
error. -/
def setLastErr (e : String) (st : State) : State :=
  { st with lastErr := some e }

/-- `terminfo.ErrInvalidTermProgramVersion`, the error recorded on an
iTerm version parse failure. -/
def errInvalidTermProgramVersion : String := "invalid TERM_PROGRAM_VERSION"

/-- Is the first list a prefix of the second (`==` on chars)? -/
def listIsPrefix : List Char → List Char → Bool
  | [], _ => true
  | _ :: _, [] => false
  | a :: as, b :: bs => a == b && listIsPrefix as bs

/-- Does `sub` occur in `s` (as a contiguous run)? Checks every suffix. -/
def listContains (sub : List Char) : List Char → Bool
  | [] => listIsPrefix sub []
  | c :: rest => listIsPrefix sub (c :: rest) || listContains sub rest

/-- Go `strings.Contains s substr`. -/
def stringsContains (s substr : String) : Bool :=
  listContains substr.data s.data

/-- Go `strings.Split(s, ".")[0]`: the part of `s` before the first
`'.'` (all of `s` when it has no dot). -/
def beforeFirstDot (s : String) : String :=
  String.mk (s.data.takeWhile (fun c => !(c == '.')))

/-- Fold a digit list into a number, failing on a non-digit
(`'0'` is code point 48, `'9'` is 57). -/
def digitsToNat : List Char → Option Nat
  | [] => some 0
  | c :: cs =>
    if 48 ≤ c.toNat ∧ c.toNat ≤ 57 then
      (digitsToNat cs).map (fun n => (c.toNat - 48) * 10 ^ cs.length + n)
    else none

/-- Go `strconv.Atoi`: optional sign, at least one digit, only digits,
and the value must fit a 64-bit signed int (Atoi reports `ErrRange`
otherwise, which the caller treats like any other parse error). -/
def atoi (s : String) : Option Int :=
  let (neg, ds) :=
    match s.data with
    | '-' :: rest => (true, rest)
    | '+' :: rest => (false, rest)
    | l => (false, l)
  if ds.isEmpty then none
  else match digitsToNat ds with
    | none => none
    | some n =>
      if neg then
        if n ≤ 2 ^ 63 then some (-(n : Int)) else none
      else
        if n ≤ 2 ^ 63 - 1 then some (n : Int) else none

/-- `func NoColor() bool { return noColor }` -/
def NoColor (st : State) : Bool := st.noColor

/-- `func IsSupportColor() bool { return colorLevel != TermColorNone }` -/
def IsSupportColor (st : State) : Bool :=
  !(st.colorLevel == TermColorNone)

/-- `func IsSupport256Color() bool { return colorLevel >= TermColor256 }` -/
def IsSupport256Color (st : State) : Bool :=
  decide (TermColor256 ≤ st.colorLevel)

/-- `func IsSupportTrueColor() bool { return colorLevel == TermColorTrue }` -/
def IsSupportTrueColor (st : State) : Bool :=
  st.colorLevel == TermColorTrue

/-- `func ForceEnableColor()`: clears `noColor`, saves `supportColor`
into `backOldVal`, forces `supportColor` to true. -/
def ForceEnableColor (st : State) : State :=
  { st with
    noColor := false
    backOldVal := st.supportColor
    supportColor := true }

/-- `func RevertColorSupport()`: `supportColor = backOldVal;
noColor = os.Getenv("NO_COLOR") == ""`. -/
def RevertColorSupport (env : Env) (st : State) : State :=
  { st with
    supportColor := st.backOldVal
    noColor := getenv env.NO_COLOR == "" }

/-- `const noTrueColorTerm = "screen"` — on TERM=screen: not support
true-color. -/
def noTrueColorTerm : String := "screen"

/-- `detectColorLevelFromEnv(termVal string, isWin bool) ColorLevel`,
with the `setLastErr` side effect made explicit in the returned state. -/
def detectColorLevelFromEnv (termVal : String) (isWin : Bool) (env : Env)
    (st : State) : ColorLevel × State :=
  if termVal == noTrueColorTerm then (TermColor256, st)
  else
    let colorTerm := getenv env.COLORTERM
    let termProg := getenv env.TERM_PROGRAM
    let forceColor := getenv env.FORCE_COLOR
    if stringsContains colorTerm "truecolor" || stringsContains colorTerm "24bit" then
      (TermColorTrue, st)
    else if colorTerm != "" || forceColor != "" then
      (TermColor16, st)
    else if termProg == "Apple_Terminal" then
      (TermColor256, st)
    else if termProg == "Terminus" || termProg == "Hyper" then
      (TermColorTrue, st)
    else if termProg == "iTerm.app" then
      let termVer := getenv env.TERM_PROGRAM_VERSION
      if termVer != "" then
        match atoi (beforeFirstDot termVer) with
        | none => (TermColor256, setLastErr errInvalidTermProgramVersion st)
        | some i => if i == 3 then (TermColorTrue, st) else (TermColor256, st)
      else (TermColor256, st)
    else if !isWin && termVal != "" then
      (TermColor16, st)
    else
      (TermColorNone, st)

/-- Modelled from the spec: `detectSpecialTermColor` is not under
`src/`. The spec describes it as inspecting TERM against a small table
of known special terminal identifiers (legacy Windows consoles, ConEmu,
mintty-family terminals), possibly upgrading the level away from `None`
and setting `needVTP`; the exact table is a configuration constant, not
an algorithmic contract. An unmatched TERM yields `(TermColorNone,
false)`. -/
def specialTermTable : List (String × (ColorLevel × Bool)) :=
  [("cygwin", (TermColorTrue, false)),
   ("xterm", (TermColorTrue, true)),
   ("mintty", (TermColorTrue, false))]

/-- Modelled from the spec: table lookup on the TERM value; no match
means no special terminal, level `None`, no VTP request. -/
def detectSpecialTermColor (termVal : String) : ColorLevel × Bool :=
  match specialTermTable.lookup termVal with
  | some r => r
  | none => (TermColorNone, false)

/-- `detectTermColorLevel() (level ColorLevel, needVTP bool)`. The Go
nested `if termVal != noTrueColorTerm { if val == "JetBrains-JediTerm"
{ return ... } }` with early return is flattened into one conjunction. -/
def detectTermColorLevel (env : Env) (st : State) :
    (ColorLevel × Bool) × State :=
  let isWin := env.GOOS == "windows"
  let termVal := getenv env.TERM
  if termVal != noTrueColorTerm && getenv env.TERMINAL_EMULATOR == "JetBrains-JediTerm" then
    ((TermColorTrue, false), st)
  else
    let r := detectColorLevelFromEnv termVal isWin env st
    if r.1 == TermColorNone then
      (detectSpecialTermColor termVal, r.2)
    else
      ((r.1, false), r.2)

/-- `func DetectColorLevel() ColorLevel { level, _ := detectTermColorLevel(); return level }` -/
def DetectColorLevel (env : Env) (st : State) : ColorLevel × State :=
  ((detectTermColorLevel env st).1.1, (detectTermColorLevel env st).2)

/-- The filesystem input of `detectWSL`: the contents of
`/proc/version`, or `none` when opening the file fails. -/
structure ProcFS where
  procVersion : Option String
  deriving Repr, DecidableEq

/-- `func detectWSL() bool`: guarded by the `detectedWSL` flag, reads up
to 1024 bytes of `/proc/version` into `wslContents` and tests for the
"Microsoft" marker; an open failure falls through to `return false`.
Note the flag records only that the probe was attempted — no boolean
result is stored, so the post-guard path always returns false. -/
def detectWSL (fs : ProcFS) (st : State) : Bool × State :=
  if !st.detectedWSL then
    let st1 := { st with detectedWSL := true }
    match fs.procVersion with
    | some content =>
      let contents := String.mk (content.data.take 1024)
      let st2 := { st1 with wslContents := contents }
      (stringsContains contents "Microsoft", st2)
    | none => (false, st1)
  else
    (false, st)


/-- C4: if TERM is not "screen" and TERMINAL_EMULATOR is
"JetBrains-JediTerm", `detectTermColorLevel` returns `TermColorTrue`
with `needVTP = false` immediately, leaving the state untouched: no
later rule (and no NO_COLOR suppression) is consulted. -/
theorem jetbrains_short_circuit (env : Env) (st : State)
    (h1 : getenv env.TERM ≠ "screen")
    (h2 : getenv env.TERMINAL_EMULATOR = "JetBrains-JediTerm") :
    detectTermColorLevel env st = ((TermColorTrue, false), st) ∧
    (DetectColorLevel env st).1 = TermColorTrue := by
  have h : detectTermColorLevel env st = ((TermColorTrue, false), st) := by
    simp [detectTermColorLevel, noTrueColorTerm, h1, h2]
  exact ⟨h, by simp [DetectColorLevel, h]⟩

/-- C4 witness: TERM unset, NO_COLOR set, TERMINAL_EMULATOR =
"JetBrains-JediTerm". -/
theorem jetbrains_short_circuit_witness :
    detectTermColorLevel
      ⟨none, some "JetBrains-JediTerm", none, none, none, none, some "1", "linux"⟩
      ⟨false, false, false, 0, false, "", none⟩ =
    ((TermColorTrue, false), ⟨false, false, false, 0, false, "", none⟩) :=
  (jetbrains_short_circuit _ _ (by decide) (by decide)).1

/-- C5: with TERM = "screen", `DetectColorLevel` returns `TermColor256`
(Extended) whatever the other variables hold, and never `TermColorTrue`. -/
theorem screen_term_extended (env : Env) (st : State)
    (h : getenv env.TERM = "screen") :
    DetectColorLevel env st = (TermColor256, st) ∧
    (DetectColorLevel env st).1 ≠ TermColorTrue := by
  have hd : detectColorLevelFromEnv "screen" (env.GOOS == "windows") env st
      = (TermColor256, st) := by
    simp [detectColorLevelFromEnv, noTrueColorTerm]
  have ht : detectTermColorLevel env st = ((TermColor256, false), st) := by
    simp [detectTermColorLevel, noTrueColorTerm, h, hd, TermColor256, TermColorNone]
  refine ⟨by simp [DetectColorLevel, ht], ?_⟩
  simp [DetectColorLevel, ht, TermColor256, TermColorTrue]

/-- C5 witness: TERM = "screen" with COLORTERM = "truecolor" still gives
Extended. -/
theorem screen_term_extended_witness :
    DetectColorLevel
      ⟨some "screen", none, some "truecolor", none, none, none, none, "linux"⟩
      ⟨false, false, false, 0, false, "", none⟩ =
    (TermColor256, ⟨false, false, false, 0, false, "", none⟩) :=
  (screen_term_extended _ _ (by decide)).1


/-- C7: with no screen special-case and no JetBrains short-circuit,
COLORTERM containing "truecolor" or "24bit" yields `TermColorTrue`
whatever TERM_PROGRAM holds; otherwise a non-empty COLORTERM or
FORCE_COLOR yields `TermColor16` (Basic). -/
theorem colorterm_rules (env : Env) (st : State)
    (h1 : getenv env.TERM ≠ "screen")
    (h2 : getenv env.TERMINAL_EMULATOR ≠ "JetBrains-JediTerm") :
    ((stringsContains (getenv env.COLORTERM) "truecolor" ||
        stringsContains (getenv env.COLORTERM) "24bit") = true →
      (DetectColorLevel env st).1 = TermColorTrue) ∧
    ((stringsContains (getenv env.COLORTERM) "truecolor" ||
        stringsContains (getenv env.COLORTERM) "24bit") = false →
      (getenv env.COLORTERM ≠ "" ∨ getenv env.FORCE_COLOR ≠ "") →
      (DetectColorLevel env st).1 = TermColor16) := by
  constructor
  · intro hc
    have hd : detectColorLevelFromEnv (getenv env.TERM) (env.GOOS == "windows") env st
        = (TermColorTrue, st) := by
      simp [detectColorLevelFromEnv, noTrueColorTerm, h1, hc]
    have ht : detectTermColorLevel env st = ((TermColorTrue, false), st) := by
      simp [detectTermColorLevel, noTrueColorTerm, h2, hd, TermColorTrue, TermColorNone]
    simp [DetectColorLevel, ht]
  · intro hcf hor
    have hd : detectColorLevelFromEnv (getenv env.TERM) (env.GOOS == "windows") env st
        = (TermColor16, st) := by
      rcases hor with h | h <;>
        simp [detectColorLevelFromEnv, noTrueColorTerm, h1, hcf, h]
    have ht : detectTermColorLevel env st = ((TermColor16, false), st) := by
      simp [detectTermColorLevel, noTrueColorTerm, h2, hd, TermColor16, TermColorNone]
    simp [DetectColorLevel, ht]

/-- C7 witness: COLORTERM = "truecolor" with TERM_PROGRAM =
"Apple_Terminal" still gives TrueColor. -/
theorem colorterm_rules_witness :
    (DetectColorLevel
      ⟨none, none, some "truecolor", some "Apple_Terminal", none, none, none, "linux"⟩
      ⟨false, false, false, 0, false, "", none⟩).1 = TermColorTrue :=
  (colorterm_rules _ _ (by decide) (by decide)).1 (by decide)

/-- C8: when no environment rule matches (COLORTERM and FORCE_COLOR
empty, TERM_PROGRAM not a recognised program, TERM not "screen", no
JetBrains short-circuit) on a non-Windows host: a non-empty TERM gives
`TermColor16` (the capability-database lookup is skipped) and an empty
TERM gives `TermColorNone`. -/
theorem fallback_term_level (env : Env) (st : State)
    (h1 : getenv env.TERM ≠ "screen")
    (h2 : getenv env.TERMINAL_EMULATOR ≠ "JetBrains-JediTerm")
    (hct : getenv env.COLORTERM = "")
    (hfc : getenv env.FORCE_COLOR = "")
    (hp1 : getenv env.TERM_PROGRAM ≠ "Apple_Terminal")
    (hp2 : getenv env.TERM_PROGRAM ≠ "Terminus")
    (hp3 : getenv env.TERM_PROGRAM ≠ "Hyper")
    (hp4 : getenv env.TERM_PROGRAM ≠ "iTerm.app")
    (hw : env.GOOS ≠ "windows") :
    (getenv env.TERM ≠ "" → (DetectColorLevel env st).1 = TermColor16) ∧
    (getenv env.TERM = "" → (DetectColorLevel env st).1 = TermColorNone) := by
  have hcc : (stringsContains "" "truecolor" || stringsContains "" "24bit") = false := by
    decide
  constructor
  · intro hne
    have hd : detectColorLevelFromEnv (getenv env.TERM) (env.GOOS == "windows") env st
        = (TermColor16, st) := by
      simp [detectColorLevelFromEnv, noTrueColorTerm, h1, hct, hfc, hcc,
        hp1, hp2, hp3, hp4, hw, hne]
    have ht : detectTermColorLevel env st = ((TermColor16, false), st) := by
      simp [detectTermColorLevel, noTrueColorTerm, h2, hd, TermColor16, TermColorNone]
    simp [DetectColorLevel, ht]
  · intro he
    have hd : detectColorLevelFromEnv "" (env.GOOS == "windows") env st
        = (TermColorNone, st) := by
      simp [detectColorLevelFromEnv, noTrueColorTerm, hct, hfc, hcc,
        hp1, hp2, hp3, hp4]
    have hsp : detectSpecialTermColor "" = (TermColorNone, false) := by decide
    have ht : detectTermColorLevel env st = ((TermColorNone, false), st) := by
      simp [detectTermColorLevel, noTrueColorTerm, h2, he, hd, hsp, TermColorNone]
    simp [DetectColorLevel, ht]

/-- C8 witness: TERM = "vt100" on an otherwise empty non-Windows
environment gives Basic; a fully empty environment gives None. -/
theorem fallback_term_level_witness :
    (DetectColorLevel ⟨some "vt100", none, none, none, none, none, none, "linux"⟩
      ⟨false, false, false, 0, false, "", none⟩).1 = TermColor16 ∧
    (DetectColorLevel ⟨none, none, none, none, none, none, none, "linux"⟩
      ⟨false, false, false, 0, false, "", none⟩).1 = TermColorNone :=
  ⟨(fallback_term_level _ _ (by decide) (by decide) (by decide) (by decide) (by decide)
      (by decide) (by decide) (by decide) (by decide)).1 (by decide),
   (fallback_term_level _ _ (by decide) (by decide) (by decide) (by decide) (by decide)
      (by decide) (by decide) (by decide) (by decide)).2 (by decide)⟩

/-- Case analysis of the rule list: the level it returns is a function
of TERM, the Windows flag and the environment alone, and the state is
passed through untouched except that an iTerm version parse failure
sets the last-error slot. -/
theorem dclfe_cases (t : String) (w : Bool) (env : Env) :
    (∃ lvl, ∀ st : State, detectColorLevelFromEnv t w env st = (lvl, st)) ∨
    (∀ st : State, detectColorLevelFromEnv t w env st =
      (TermColor256, setLastErr errInvalidTermProgramVersion st)) := by
  by_cases h1 : t = noTrueColorTerm
  · exact Or.inl ⟨TermColor256, fun st => by simp [detectColorLevelFromEnv, h1]⟩
  by_cases h2 : (stringsContains (getenv env.COLORTERM) "truecolor" ||
      stringsContains (getenv env.COLORTERM) "24bit") = true
  · exact Or.inl ⟨TermColorTrue, fun st => by simp [detectColorLevelFromEnv, h1, h2]⟩
  by_cases h3 : (getenv env.COLORTERM != "" || getenv env.FORCE_COLOR != "") = true
  · exact Or.inl ⟨TermColor16, fun st => by simp [detectColorLevelFromEnv, h1, h2, h3]⟩
  by_cases h4 : getenv env.TERM_PROGRAM = "Apple_Terminal"
  · exact Or.inl ⟨TermColor256, fun st => by
      simp [detectColorLevelFromEnv, h1, h2, h3, h4]⟩
  by_cases h5 : (getenv env.TERM_PROGRAM == "Terminus" ||
      getenv env.TERM_PROGRAM == "Hyper") = true
  · exact Or.inl ⟨TermColorTrue, fun st => by
      simp [detectColorLevelFromEnv, h1, h2, h3, h4, h5]⟩
  by_cases h6 : getenv env.TERM_PROGRAM = "iTerm.app"
  · by_cases h7 : getenv env.TERM_PROGRAM_VERSION = ""
    · exact Or.inl ⟨TermColor256, fun st => by
        simp [detectColorLevelFromEnv, h1, h2, h3, h4, h5, h6, h7]⟩
    · rcases hat : atoi (beforeFirstDot (getenv env.TERM_PROGRAM_VERSION)) with _ | n
      · exact Or.inr fun st => by
          simp [detectColorLevelFromEnv, h1, h2, h3, h4, h5, h6, h7, hat]
      · by_cases h8 : n = 3
        · exact Or.inl ⟨TermColorTrue, fun st => by
            simp [detectColorLevelFromEnv, h1, h2, h3, h4, h5, h6, h7, hat, h8]⟩
        · exact Or.inl ⟨TermColor256, fun st => by
            simp [detectColorLevelFromEnv, h1, h2, h3, h4, h5, h6, h7, hat, h8]⟩
  by_cases h9 : (!w && t != "") = true
  · exact Or.inl ⟨TermColor16, fun st => by
      simp [detectColorLevelFromEnv, h1, h2, h3, h4, h5, h6, h9]⟩
  · exact Or.inl ⟨TermColorNone, fun st => by
      simp [detectColorLevelFromEnv, h1, h2, h3, h4, h5, h6, h9]⟩

/-- C10: a `DetectColorLevel` call leaves the no-color flag, the
supports-color flag, the saved backup value, the cached color level and
the WSL probe cache unchanged; only the diagnostic last-error slot may
be written, and its content never affects the returned level. -/
theorem detect_frame (env : Env) (st : State) :
    ((DetectColorLevel env st).2.noColor = st.noColor ∧
     (DetectColorLevel env st).2.supportColor = st.supportColor ∧
     (DetectColorLevel env st).2.backOldVal = st.backOldVal ∧
     (DetectColorLevel env st).2.colorLevel = st.colorLevel ∧
     (DetectColorLevel env st).2.detectedWSL = st.detectedWSL ∧
     (DetectColorLevel env st).2.wslContents = st.wslContents) ∧
    ∀ e : Option String,
      (DetectColorLevel env { st with lastErr := e }).1 =
        (DetectColorLevel env st).1 := by
  by_cases hc : ((getenv env.TERM != noTrueColorTerm) &&
      (getenv env.TERMINAL_EMULATOR == "JetBrains-JediTerm")) = true
  · constructor
    · simp [DetectColorLevel, detectTermColorLevel, hc]
    · intro e; simp [DetectColorLevel, detectTermColorLevel, hc]
  · rcases dclfe_cases (getenv env.TERM) (env.GOOS == "windows") env with ⟨lvl, hf⟩ | hf
    · by_cases h0 : lvl = TermColorNone
      · constructor
        · simp [DetectColorLevel, detectTermColorLevel, hc, hf st, h0]
        · intro e
          simp [DetectColorLevel, detectTermColorLevel, hc, hf st,
            hf { st with lastErr := e }, h0]
      · constructor
        · simp [DetectColorLevel, detectTermColorLevel, hc, hf st, h0]
        · intro e
          simp [DetectColorLevel, detectTermColorLevel, hc, hf st,
            hf { st with lastErr := e }, h0]
    · constructor
      · simp [DetectColorLevel, detectTermColorLevel, hc, hf st, setLastErr,
          TermColor256, TermColorNone]
      · intro e
        simp [DetectColorLevel, detectTermColorLevel, hc, hf st,
          hf { st with lastErr := e }, setLastErr, TermColor256, TermColorNone]

/-- C6 counterexample: with TERM_PROGRAM = "iTerm.app" and
TERM_PROGRAM_VERSION unset (so `os.Getenv` yields ""), the before-dot
substring "" fails to parse, yet the code skips the parse entirely: the
level is Extended but no error is recorded in the last-error slot,
contrary to the claim's parse-failure arm. -/
theorem iterm_version_counterexample :
    atoi (beforeFirstDot (getenv
      (⟨none, none, none, some "iTerm.app", none, none, none, "linux"⟩ :
        Env).TERM_PROGRAM_VERSION)) = none ∧
    detectColorLevelFromEnv "" false
      ⟨none, none, none, some "iTerm.app", none, none, none, "linux"⟩
      ⟨false, false, false, 0, false, "", none⟩ =
    (TermColor256, ⟨false, false, false, 0, false, "", none⟩) := by
  constructor
  · decide
  · decide

/-- C6 (amended): under TERM ≠ "screen", empty COLORTERM and
FORCE_COLOR, and TERM_PROGRAM = "iTerm.app": a before-dot substring
parsing as 3 gives TrueColor; parsing as another integer gives
Extended; a failed parse of a non-empty version records the error and
gives Extended; an empty version skips the parse and gives Extended
with no error recorded. -/
theorem iterm_version_rule (env : Env) (st : State)
    (h1 : getenv env.TERM ≠ "screen")
    (hct : getenv env.COLORTERM = "")
    (hfc : getenv env.FORCE_COLOR = "")
    (hp : getenv env.TERM_PROGRAM = "iTerm.app") :
    (atoi (beforeFirstDot (getenv env.TERM_PROGRAM_VERSION)) = some 3 →
      detectColorLevelFromEnv (getenv env.TERM) (env.GOOS == "windows") env st
        = (TermColorTrue, st)) ∧
    (∀ n : Int, atoi (beforeFirstDot (getenv env.TERM_PROGRAM_VERSION)) = some n →
      n ≠ 3 →
      detectColorLevelFromEnv (getenv env.TERM) (env.GOOS == "windows") env st
        = (TermColor256, st)) ∧
    (getenv env.TERM_PROGRAM_VERSION ≠ "" →
      atoi (beforeFirstDot (getenv env.TERM_PROGRAM_VERSION)) = none →
      detectColorLevelFromEnv (getenv env.TERM) (env.GOOS == "windows") env st
        = (TermColor256, setLastErr errInvalidTermProgramVersion st)) ∧
    (getenv env.TERM_PROGRAM_VERSION = "" →
      detectColorLevelFromEnv (getenv env.TERM) (env.GOOS == "windows") env st
        = (TermColor256, st)) := by
  have hcc : (stringsContains "" "truecolor" || stringsContains "" "24bit") = false := by
    decide
  refine ⟨?_, ?_, ?_, ?_⟩
  · intro ha
    have hv : getenv env.TERM_PROGRAM_VERSION ≠ "" := by
      intro he
      rw [he] at ha
      exact absurd ha (by decide)
    simp [detectColorLevelFromEnv, noTrueColorTerm, h1, hct, hfc, hcc, hp, hv, ha]
  · intro n ha hn
    have hv : getenv env.TERM_PROGRAM_VERSION ≠ "" := by
      intro he
      have hnone : atoi (beforeFirstDot "") = none := by decide
      rw [he, hnone] at ha
      simp at ha
    simp [detectColorLevelFromEnv, noTrueColorTerm, h1, hct, hfc, hcc, hp, hv, ha, hn]
  · intro hv ha
    simp [detectColorLevelFromEnv, noTrueColorTerm, h1, hct, hfc, hcc, hp, hv, ha]
  · intro hv
    simp [detectColorLevelFromEnv, noTrueColorTerm, h1, hct, hfc, hcc, hp, hv]

/-- C6 witness: version "3.4.1" parses to major 3 and gives TrueColor. -/
theorem iterm_version_rule_witness :
    detectColorLevelFromEnv
      (getenv (⟨none, none, none, some "iTerm.app", some "3.4.1", none, none,
        "linux"⟩ : Env).TERM)
      ((⟨none, none, none, some "iTerm.app", some "3.4.1", none, none,
        "linux"⟩ : Env).GOOS == "windows")
      ⟨none, none, none, some "iTerm.app", some "3.4.1", none, none, "linux"⟩
      ⟨false, false, false, 0, false, "", none⟩ =
    (TermColorTrue, ⟨false, false, false, 0, false, "", none⟩) :=
  (iterm_version_rule _ _ (by decide) (by decide) (by decide) (by decide)).1 (by decide)

/-- C1 counterexample: from a state whose cached color level is
`TermColorNone` (the level detection produces exactly that in an empty
non-Windows environment), `ForceEnableColor` forces the separate
`supportColor` flag but leaves `colorLevel` alone, so `IsSupportColor`
still reports false — the claim's "IsSupportColor() returns true,
independent of the environment" fails. -/
theorem force_enable_counterexample :
    IsSupportColor (ForceEnableColor
      ⟨false, false, false, TermColorNone, false, "", none⟩) = false := by
  decide

/-- C1 (amended): `ForceEnableColor` forces the supports-color flag to
true and clears the no-color flag, saving the previous supports-color
value; `IsSupportColor` reads the cached color level, which the force
leaves unchanged, so it is unaffected; `RevertColorSupport` restores
the saved supports-color value exactly as it was before the force. -/
theorem force_enable_revert (env : Env) (st : State) :
    (ForceEnableColor st).supportColor = true ∧
    (ForceEnableColor st).noColor = false ∧
    (ForceEnableColor st).backOldVal = st.supportColor ∧
    (ForceEnableColor st).colorLevel = st.colorLevel ∧
    IsSupportColor (ForceEnableColor st) = IsSupportColor st ∧
    (RevertColorSupport env (ForceEnableColor st)).supportColor = st.supportColor := by
  simp [ForceEnableColor, RevertColorSupport, IsSupportColor]

/-- C2: `RevertColorSupport` computes `noColor = (os.Getenv("NO_COLOR")
== "")`, the inverse of the documented meaning: with NO_COLOR set to
"1" the recomputed `NoColor()` is false, and with NO_COLOR unset it is
true. -/
theorem nocolor_recompute_inverted :
    NoColor (RevertColorSupport
      ⟨none, none, none, none, none, none, some "1", "linux"⟩
      ⟨false, false, false, 0, false, "", none⟩) = false ∧
    NoColor (RevertColorSupport
      ⟨none, none, none, none, none, none, none, "linux"⟩
      ⟨false, false, false, 0, false, "", none⟩) = true := by
  constructor
  · decide
  · decide

/-- C3: on a WSL host (probe file readable, containing "Microsoft") the
first `detectWSL` call returns true, but the code caches only the
"already attempted" flag, not the boolean result: the second call takes
the guarded path and returns false, so later calls do not return the
same boolean as the first. The probe is still read at most once — the
second call leaves the state (including the cached contents) unchanged
— and an unreadable probe file yields false. -/
theorem detectWSL_result_not_cached :
    (detectWSL ⟨some "Linux version 4.4.0-19041-Microsoft (Microsoft@Microsoft.com)"⟩
      ⟨false, false, false, 0, false, "", none⟩).1 = true ∧
    (detectWSL ⟨some "Linux version 4.4.0-19041-Microsoft (Microsoft@Microsoft.com)"⟩
      (detectWSL ⟨some "Linux version 4.4.0-19041-Microsoft (Microsoft@Microsoft.com)"⟩
        ⟨false, false, false, 0, false, "", none⟩).2).1 = false ∧
    (detectWSL ⟨some "Linux version 4.4.0-19041-Microsoft (Microsoft@Microsoft.com)"⟩
      (detectWSL ⟨some "Linux version 4.4.0-19041-Microsoft (Microsoft@Microsoft.com)"⟩
        ⟨false, false, false, 0, false, "", none⟩).2).2 =
      (detectWSL ⟨some "Linux version 4.4.0-19041-Microsoft (Microsoft@Microsoft.com)"⟩
        ⟨false, false, false, 0, false, "", none⟩).2 ∧
    (detectWSL ⟨none⟩ ⟨false, false, false, 0, false, "", none⟩).1 = false := by
  refine ⟨?_, ?_, ?_, ?_⟩ <;> decide

/-- C9: the derived capability queries are monotone in the numeric
order `TermColorNone < TermColor16 < TermColor256 < TermColorTrue` on
the cached level: whenever `IsSupport256Color` holds at the lower of
two levels it holds at the higher, and likewise for `IsSupportColor`. -/
theorem support_queries_monotone (st1 st2 : State)
    (h : st1.colorLevel < st2.colorLevel) :
    (IsSupport256Color st1 = true → IsSupport256Color st2 = true) ∧
    (IsSupportColor st1 = true → IsSupportColor st2 = true) := by
  constructor
  · intro hs
    simp [IsSupport256Color, TermColor256] at hs ⊢
    exact le_trans hs h.le
  · intro hs
    simp [IsSupportColor, TermColorNone] at hs ⊢
    intro h0
    exact Nat.not_lt_zero _ (h0 ▸ h)

/-- C9 witness: a level-2 state supports 256 colors, hence so does a
level-3 state. -/
theorem support_queries_monotone_witness :
    IsSupport256Color ⟨false, false, false, TermColorTrue, false, "", none⟩ = true :=
  (support_queries_monotone ⟨false, false, false, TermColor256, false, "", none⟩
    ⟨false, false, false, TermColorTrue, false, "", none⟩ (by decide)).1 (by decide)

end termenv
